import Mathlib

/-!
Shallow embedding of src/src/rvg/text.cpp (the rvg Text object).

Floats (`float`, `Vec2f` components, glyph metrics) are modelled as rationals;
byte sizes and counts as naturals.  External collaborators (font / glyph atlas,
Vulkan context, buffer allocator) are modelled only through the data the Text
code observes: a font is a glyph lookup together with the boolean result of
`ensureRange` (whether glyph coverage had to be extended), and a device buffer
is its allocated byte capacity plus the residency of the memory it was
allocated in.  Side effects on the context (rerecord requests, the
update-device registration) and atlas registration bookkeeping do not touch
any state the claims speak about and are not part of the state here.
-/

namespace Rvg

/-- Two-dimensional vector of rationals, modelling nytl Vec2f. -/
structure Vec2f where
  x : ℚ
  y : ℚ
deriving DecidableEq, Repr

instance : Inhabited Vec2f := ⟨⟨0, 0⟩⟩

/-- Rectangle given by origin and size, modelling rvg Rect2f. -/
structure Rect2f where
  position : Vec2f
  size : Vec2f
deriving DecidableEq, Repr

/-- Glyph metrics as delivered by the nuklear font backend
(struct nk_font_glyph): quad corner offsets, texture coordinates and the
horizontal advance. -/
structure nk_font_glyph where
  x0 : ℚ
  y0 : ℚ
  x1 : ℚ
  y1 : ℚ
  u0 : ℚ
  v0 : ℚ
  u1 : ℚ
  v1 : ℚ
  xadvance : ℚ
deriving DecidableEq, Repr

/-- The slice of the Font collaborator that Text::update / Text::ithBounds
observe: glyph metrics per codepoint (both font->glyph(c) and
nk_font_find_glyph go through this) and the boolean returned by
font->ensureRange(text) — true when glyph coverage had to be extended,
which triggers an atlas rebake. -/
structure Font where
  glyph : Nat → nk_font_glyph
  ensureRange : List Nat → Bool

/-- The observable state of a vpp::SubBuffer as used by Text: its allocated
byte capacity (`size() == 0` means unallocated) and whether the memory it
was allocated in is device-local.  The model fixes a device on which the
host-visible and device-local memory-type sets are disjoint (the common
discrete-GPU situation), so the `!(needed & type)` test in
Text::deviceLocal becomes a residency mismatch test. -/
structure SubBuffer where
  size : Nat
  memDeviceLocal : Bool
deriving DecidableEq, Repr

/-- A default-constructed (empty, unallocated) buffer, `buf = {}`. -/
def SubBuffer.empty : SubBuffer := ⟨0, false⟩

/-- Byte size of Vec2f (two 32-bit floats). -/
def sizeofVec2f : Nat := 8

/-- Byte size of vk::DrawIndirectCommand (four 32-bit words). -/
def sizeofDrawIndirectCommand : Nat := 16

/-- The vk::DrawIndirectCommand as written into the position buffer. -/
structure DrawIndirectCommand where
  vertexCount : Nat
  instanceCount : Nat
  firstVertex : Nat
  firstInstance : Nat
deriving DecidableEq, Repr

/-- The Text::State struct: the utf32 codepoints, the font and the position. -/
structure State where
  utf32 : List Nat
  font : Font
  position : Vec2f

/-- The Text object state the claims are about: logical state, the two
geometry caches, the two device buffers, and the disable / deviceLocal
flags. -/
structure Text where
  state_ : State
  posCache_ : List Vec2f
  uvCache_ : List Vec2f
  posBuf_ : SubBuffer
  uvBuf_ : SubBuffer
  disable_ : Bool
  deviceLocal_ : Bool

/-- constexpr auto vertIndex0 = 2 (cache entry used as the quad start in
charAt/ithBounds). -/
def vertIndex0 : Nat := 2

/-- constexpr auto vertIndex2 = 3 (cache entry used as the quad end in
charAt/ithBounds). -/
def vertIndex2 : Nat := 3

/-- The addVert lambda in Text::update: for corner index i, the position
vertex and the uv vertex pushed to the caches.  left is i == 0 || i == 3,
top is i == 0 || i == 1; x is the running cursor. -/
def addVert (position : Vec2f) (x : ℚ) (glyph : nk_font_glyph) (i : Nat) :
    Vec2f × Vec2f :=
  let left := i == 0 || i == 3
  let top := i == 0 || i == 1
  (⟨x + (if left then glyph.x0 else glyph.x1),
    position.y + (if top then glyph.y0 else glyph.y1)⟩,
   ⟨if left then glyph.u0 else glyph.u1,
    if top then glyph.v0 else glyph.v1⟩)

/-- The corner-index sequence of the per-character emission loop in
Text::update: for(auto i : {1, 1, 0, 2, 3, 3}). -/
def stripOrder : List Nat := [1, 1, 0, 2, 3, 3]

/-- The six position vertices and six uv vertices emitted for one character
at cursor x. -/
def charVerts (position : Vec2f) (x : ℚ) (g : nk_font_glyph) :
    List Vec2f × List Vec2f :=
  (stripOrder.map fun i => (addVert position x g i).1,
   stripOrder.map fun i => (addVert position x g i).2)

/-- The character loop of Text::update: walks the text, emits six vertices
per character into each cache and advances the cursor by the glyph's
xadvance. -/
def buildCaches (font : Font) (position : Vec2f) :
    List Nat → ℚ → List Vec2f × List Vec2f
  | [], _ => ([], [])
  | c :: rest, x =>
    let g := font.glyph c
    let tail := buildCaches font position rest (x + g.xadvance)
    ((charVerts position x g).1 ++ tail.1,
     (charVerts position x g).2 ++ tail.2)

/-- The function Text::update.  The atlas-swap branch only touches atlas registration and
the rerecord flag, never the caches, and is external bookkeeping here.  If
font->ensureRange(text) reports extended coverage, update returns before
touching the caches (the atlas rebake re-invokes it); otherwise both caches
are cleared and rebuilt, with the cursor starting at position.x. -/
def Text.update (t : Text) : Text :=
  if t.state_.font.ensureRange t.state_.utf32 then
    t
  else
    let caches :=
      buildCaches t.state_.font t.state_.position t.state_.utf32
        t.state_.position.x
    { t with posCache_ := caches.1, uvCache_ := caches.2 }

/-- The checkResize lambda in Text::updateDevice: reallocate when the buffer
is unallocated or smaller than needed, to max(2 * needed, 32) bytes, in
memory matching the current deviceLocal flag; reports whether it
reallocated. -/
def checkResize (deviceLocal : Bool) (buf : SubBuffer) (needed : Nat) :
    SubBuffer × Bool :=
  if buf.size = 0 ∨ buf.size < needed then
    ({ size := max (2 * needed) 32, memDeviceLocal := deviceLocal }, true)
  else
    (buf, false)

/-- What a run of Text::updateDevice produces: the new object state, the
rerecord flag it returns, and the indirect draw command it writes into the
position buffer. -/
structure UpdateDeviceResult where
  text : Text
  rerecord : Bool
  cmd : DrawIndirectCommand

/-- The function Text::updateDevice: resize both buffers as needed, then write the
indirect draw command (vertexCount = !disable_ * posCache_.size(),
instanceCount = 1) and the cache contents.  The uploads themselves only
copy the caches into the buffers and are not part of the modelled state;
the command written is returned for inspection. -/
def Text.updateDevice (t : Text) : UpdateDeviceResult :=
  let posCacheSize := sizeofVec2f * t.posCache_.length
  let pr := checkResize t.deviceLocal_ t.posBuf_
    (sizeofDrawIndirectCommand + posCacheSize)
  let ur := checkResize t.deviceLocal_ t.uvBuf_
    (sizeofVec2f * t.uvCache_.length)
  let cmd : DrawIndirectCommand :=
    { vertexCount := (if t.disable_ then 0 else 1) * t.posCache_.length,
      instanceCount := 1, firstVertex := 0, firstInstance := 0 }
  { text := { t with posBuf_ := pr.1, uvBuf_ := ur.1 },
    rerecord := pr.2 || ur.2,
    cmd := cmd }

/-- The scan loop of Text::charAt, from cache index i upward in steps of 6:
returns i / 6 at the first group whose entry vertIndex2 has x-coordinate
beyond the query, else posCache_.size() / 6. -/
def charAtLoop (posCache : List Vec2f) (x : ℚ) (i : Nat) : Nat :=
  if i < posCache.length then
    if x < (posCache.getD (i + vertIndex2) default).x then
      i / 6
    else
      charAtLoop posCache x (i + 6)
  else
    posCache.length / 6
termination_by posCache.length - i
decreasing_by omega

/-- The function Text::charAt: offsets the query by position.x and scans the quad
groups. -/
def Text.charAt (t : Text) (x : ℚ) : Nat :=
  charAtLoop t.posCache_ (x + t.state_.position.x) 0

/-- Bounds-checked rendering of the charAt scan loop: every cache access the
loop performs goes through List.get? and the result is none when an access
would be out of bounds.  Used to state that charAt performs no
out-of-bounds access. -/
def charAtLoopChecked (posCache : List Vec2f) (x : ℚ) (i : Nat) :
    Option Nat :=
  if i < posCache.length then
    match posCache.get? (i + vertIndex2) with
    | none => none
    | some v =>
      if x < v.x then some (i / 6) else charAtLoopChecked posCache x (i + 6)
  else
    some (posCache.length / 6)
termination_by posCache.length - i
decreasing_by omega

/-- The function Text::ithBounds: out of range (the C++ code throws std::out_of_range)
when posCache_.size() <= n * 6 or text.size() <= n; otherwise the rectangle
anchored at cache entry n*6+vertIndex0 minus the object position, sized
(advance of the n-th character's glyph, end.y - start.y). -/
def Text.ithBounds (t : Text) (n : Nat) : Option Rect2f :=
  if t.posCache_.length ≤ n * 6 ∨ t.state_.utf32.length ≤ n then
    none
  else
    let start := t.posCache_.getD (n * 6 + vertIndex0) default
    let stop := t.posCache_.getD (n * 6 + vertIndex2) default
    let g := t.state_.font.glyph (t.state_.utf32.getD n 0)
    some { position := ⟨start.x - t.state_.position.x,
                        start.y - t.state_.position.y⟩,
           size := ⟨g.xadvance, stop.y - start.y⟩ }

/-- The function Text::disable(bool): records the flag, registers for device update,
returns the previous flag. -/
def Text.disable (t : Text) (d : Bool) : Text × Bool :=
  ({ t with disable_ := d }, t.disable_)

/-- The function Text::deviceLocal(bool): on a residency change with an allocated position
buffer, drop every buffer whose memory no longer matches the requested
residency and run updateDevice to reallocate (on the modelled device the
two memory-type sets are disjoint, so a buffer matches exactly when it was
allocated under the same residency flag). -/
def Text.deviceLocal (t : Text) (set : Bool) : Text :=
  if t.deviceLocal_ ≠ set then
    let t1 : Text := { t with deviceLocal_ := set }
    if t1.posBuf_.size ≠ 0 then
      let pMismatch := t1.posBuf_.memDeviceLocal ≠ set
      let uMismatch := t1.uvBuf_.memDeviceLocal ≠ set
      let t2 : Text :=
        if pMismatch then { t1 with posBuf_ := SubBuffer.empty } else t1
      let t3 : Text :=
        if uMismatch then { t2 with uvBuf_ := SubBuffer.empty } else t2
      if pMismatch ∨ uMismatch then (t3.updateDevice).text else t3
    else t1
  else t

/-- The Text constructor: Text(ctx, txt, font, pos) stores the state,
registers with the atlas, then runs update() and updateDevice().  The
disable_ and deviceLocal_ members start out false (host-visible,
visible). -/
def Text.create (txt : List Nat) (f : Font) (xpos : Vec2f) : Text :=
  let t : Text :=
    { state_ := ⟨txt, f, xpos⟩
      posCache_ := []
      uvCache_ := []
      posBuf_ := SubBuffer.empty
      uvBuf_ := SubBuffer.empty
      disable_ := false
      deviceLocal_ := false }
  ((t.update).updateDevice).text

/-- Modelled from the spec: the setText mutator (`setText(string|codepoints)`
in the external-interface list) replaces the character sequence and marks
the object dirty for the next rebuild; the dirty marking is scheduler
bookkeeping and the observable effect is the new utf32 content.  Its body
lives in the text header, not in src. -/
def Text.setText (t : Text) (txt : List Nat) : Text :=
  { t with state_ := { t.state_ with utf32 := txt } }

/-- The six position vertices per character as the spec words them:
(TL, TL, BL, TR, BR, BR), with left corners at x0, right corners at x1,
top corners at y0, bottom corners at y1, offset by cursor and position. -/
def specCharVertsPos (p : Vec2f) (x : ℚ) (g : nk_font_glyph) : List Vec2f :=
  [⟨x + g.x0, p.y + g.y0⟩, ⟨x + g.x0, p.y + g.y0⟩, ⟨x + g.x0, p.y + g.y1⟩,
   ⟨x + g.x1, p.y + g.y0⟩, ⟨x + g.x1, p.y + g.y1⟩, ⟨x + g.x1, p.y + g.y1⟩]

/-- The six position vertices per character the code in fact emits:
(TR, TR, TL, BR, BL, BL), the left-right mirror of the spec's pattern. -/
def mirrorCharVertsPos (p : Vec2f) (x : ℚ) (g : nk_font_glyph) :
    List Vec2f :=
  [⟨x + g.x1, p.y + g.y0⟩, ⟨x + g.x1, p.y + g.y0⟩, ⟨x + g.x0, p.y + g.y0⟩,
   ⟨x + g.x1, p.y + g.y1⟩, ⟨x + g.x0, p.y + g.y1⟩, ⟨x + g.x0, p.y + g.y1⟩]

/-- The six uv vertices per character in the same (TR, TR, TL, BR, BL, BL)
order. -/
def mirrorCharVertsUv (g : nk_font_glyph) : List Vec2f :=
  [⟨g.u1, g.v0⟩, ⟨g.u1, g.v0⟩, ⟨g.u0, g.v0⟩,
   ⟨g.u1, g.v1⟩, ⟨g.u0, g.v1⟩, ⟨g.u0, g.v1⟩]

/-- Whole-text geometry written with the explicit (TR, TR, TL, BR, BL, BL)
per-character pattern and the cursor advanced by xadvance per character:
the reference the rebuilt caches are compared against. -/
def mirrorBuild (f : Font) (p : Vec2f) :
    List Nat → ℚ → List Vec2f × List Vec2f
  | [], _ => ([], [])
  | c :: rest, x =>
    let g := f.glyph c
    let tail := mirrorBuild f p rest (x + g.xadvance)
    (mirrorCharVertsPos p x g ++ tail.1, mirrorCharVertsUv g ++ tail.2)

/-- A concrete glyph used by the counterexamples: unit-wide quad, height 2,
advance 1. -/
def gA : nk_font_glyph :=
  { x0 := 0, y0 := 0, x1 := 1, y1 := 2,
    u0 := 0, v0 := 0, u1 := 1, v1 := 1, xadvance := 1 }

/-- A font whose every glyph is gA and whose coverage never needs
extension. -/
def fontA : Font := { glyph := fun _ => gA, ensureRange := fun _ => false }

/-- A one-character text object over fontA, before any rebuild. -/
def tC1 : Text :=
  { state_ := ⟨[65], fontA, ⟨0, 0⟩⟩
    posCache_ := []
    uvCache_ := []
    posBuf_ := SubBuffer.empty
    uvBuf_ := SubBuffer.empty
    disable_ := false
    deviceLocal_ := false }

/-- A font that always reports extended coverage (a never-seen glyph). -/
def fontNew : Font := { glyph := fun _ => gA, ensureRange := fun _ => true }

/-- A text object over fontNew carrying nonempty caches from an earlier
build, used to observe the early-return path of update. -/
def tC8 : Text :=
  { state_ := ⟨[66], fontNew, ⟨0, 0⟩⟩
    posCache_ := [⟨3, 4⟩]
    uvCache_ := [⟨5, 6⟩]
    posBuf_ := SubBuffer.empty
    uvBuf_ := SubBuffer.empty
    disable_ := false
    deviceLocal_ := false }

/-- Ten-character text object after its constructor ran: both buffers are
allocated for sixty cache entries. -/
def tC4a : Text :=
  Text.create [65, 65, 65, 65, 65, 65, 65, 65, 65, 65] fontA ⟨0, 0⟩

/-- The same object after its text was replaced by the empty text and the
geometry was rebuilt: caches are empty, buffer capacities untouched. -/
def tC4b : Text := (tC4a.setText []).update

/-- The same object after a residency switch to device-local memory. -/
def tC4c : Text := tC4b.deviceLocal true

/-- The one-character object after its geometry rebuild. -/
def tC1u : Text := tC1.update

/-- The x-coordinate charAt compares against for quad group j: entry
vertIndex2 of the group, the cached right edge of the j-th character. -/
def rightEdge (posCache : List Vec2f) (j : Nat) : ℚ :=
  (posCache.getD (6 * j + vertIndex2) default).x

/-- An object with an empty geometry cache (empty text, never built). -/
def tEmpty : Text :=
  { state_ := ⟨[], fontA, ⟨0, 0⟩⟩
    posCache_ := []
    uvCache_ := []
    posBuf_ := SubBuffer.empty
    uvBuf_ := SubBuffer.empty
    disable_ := false
    deviceLocal_ := false }

/-- A fresh text object before its first rebuild: empty caches, unallocated
buffers, visible, host-visible residency. -/
def freshText (txt : List Nat) (f : Font) (p : Vec2f) : Text :=
  { state_ := ⟨txt, f, p⟩
    posCache_ := []
    uvCache_ := []
    posBuf_ := SubBuffer.empty
    uvBuf_ := SubBuffer.empty
    disable_ := false
    deviceLocal_ := false }

/-- A glyph with a large left bearing: quad from x = 5 to x = 6 but advance
only 1. -/
def gBig : nk_font_glyph :=
  { x0 := 5, y0 := 0, x1 := 6, y1 := 1,
    u0 := 0, v0 := 0, u1 := 1, v1 := 1, xadvance := 1 }

/-- A glyph with zero left bearing and advance 1. -/
def gZero : nk_font_glyph :=
  { x0 := 0, y0 := 0, x1 := 1, y1 := 1,
    u0 := 0, v0 := 0, u1 := 1, v1 := 1, xadvance := 1 }

/-- A font mapping codepoint 0 to gBig and everything else to gZero, with
full coverage. -/
def fontC9 : Font :=
  { glyph := fun c => if c = 0 then gBig else gZero
    ensureRange := fun _ => false }

/-- The two-character text [0, 1] over fontC9 after its rebuild. -/
def tC9 : Text := (freshText [0, 1] fontC9 ⟨0, 0⟩).update

/-- The bounds the code returns for character 0 of tC9. -/
def r0C9 : Rect2f := ⟨⟨5, 0⟩, ⟨1, 1⟩⟩

/-- The bounds the code returns for character 1 of tC9. -/
def r1C9 : Rect2f := ⟨⟨1, 0⟩, ⟨1, 1⟩⟩

/-- The bounds of character 0 of the text [65, 66] over fontA. -/
def rA0 : Rect2f := ⟨⟨0, 0⟩, ⟨1, 2⟩⟩

/-- The bounds of character 1 of the text [65, 66] over fontA. -/
def rA1 : Rect2f := ⟨⟨1, 0⟩, ⟨1, 2⟩⟩

/- ------------------------------------------------------------------ -/
/- Helper lemmas                                                      -/
/- ------------------------------------------------------------------ -/

theorem buildCaches_eq_mirror (f : Font) (p : Vec2f) :
    ∀ (l : List Nat) (x : ℚ), buildCaches f p l x = mirrorBuild f p l x := by
  intro l
  induction l with
  | nil => intro x; rfl
  | cons c rest ih =>
    intro x
    show (_ ++ (buildCaches f p rest _).1, _ ++ (buildCaches f p rest _).2)
      = _
    rw [ih]
    rfl

theorem buildCaches_length (f : Font) (p : Vec2f) :
    ∀ (l : List Nat) (x : ℚ),
      (buildCaches f p l x).1.length = 6 * l.length ∧
      (buildCaches f p l x).2.length = 6 * l.length := by
  intro l
  induction l with
  | nil => intro x; exact ⟨rfl, rfl⟩
  | cons c rest ih =>
    intro x
    have h := ih (x + (f.glyph c).xadvance)
    constructor
    · show (_ ++ _ : List Vec2f).length = _
      rw [List.length_append, h.1]
      simp [charVerts, stripOrder]
      ring
    · show (_ ++ _ : List Vec2f).length = _
      rw [List.length_append, h.2]
      simp [charVerts, stripOrder]
      ring

theorem charAtLoop_spec (l : List Vec2f) (x : ℚ) (h6 : 6 ∣ l.length) :
    ∀ (n k : Nat), l.length ≤ 6 * k + n → 6 * k ≤ l.length →
      k ≤ charAtLoop l x (6 * k) ∧
      charAtLoop l x (6 * k) ≤ l.length / 6 ∧
      (∀ j, k ≤ j → j < charAtLoop l x (6 * k) → ¬ x < rightEdge l j) ∧
      (charAtLoop l x (6 * k) < l.length / 6 →
        x < rightEdge l (charAtLoop l x (6 * k))) := by
  obtain ⟨m, hm⟩ := h6
  have hdiv : l.length / 6 = m := by
    rw [hm]
    exact Nat.mul_div_cancel_left m (by norm_num)
  intro n
  induction n with
  | zero =>
    intro k hkn hkl
    have hstop : ¬ 6 * k < l.length := by omega
    have hres : charAtLoop l x (6 * k) = l.length / 6 := by
      rw [charAtLoop, if_neg hstop]
    rw [hres, hdiv]
    have hkm : k = m := by omega
    refine ⟨by omega, le_refl m, ?_, by omega⟩
    intro j hj1 hj2
    exfalso
    omega
  | succ n ih =>
    intro k hkn hkl
    by_cases hlt : 6 * k < l.length
    · have hk1 : 6 * (k + 1) ≤ l.length := by omega
      by_cases hx : x < (l.getD (6 * k + vertIndex2) default).x
      · have hres : charAtLoop l x (6 * k) = k := by
          rw [charAtLoop, if_pos hlt, if_pos hx]
          omega
        rw [hres]
        refine ⟨le_refl k, by omega, ?_, fun _ => hx⟩
        intro j hj1 hj2
        exfalso
        omega
      · have h66 : 6 * k + 6 = 6 * (k + 1) := by ring
        have hstep : charAtLoop l x (6 * k) = charAtLoop l x (6 * (k + 1)) := by
          rw [charAtLoop, if_pos hlt, if_neg hx, h66]
        have ihk := ih (k + 1) (by omega) hk1
        rw [hstep]
        refine ⟨by omega, ihk.2.1, ?_, ihk.2.2.2⟩
        intro j hj1 hj2
        rcases Nat.eq_or_lt_of_le hj1 with heq | hlt2
        · subst heq
          exact hx
        · exact ihk.2.2.1 j hlt2 hj2
    · have hres : charAtLoop l x (6 * k) = l.length / 6 := by
        rw [charAtLoop, if_neg hlt]
      rw [hres, hdiv]
      have hkm : k = m := by omega
      refine ⟨by omega, le_refl m, ?_, by omega⟩
      intro j hj1 hj2
      exfalso
      omega

theorem charAtLoopChecked_eq (l : List Vec2f) (x : ℚ) (h6 : 6 ∣ l.length) :
    ∀ (n k : Nat), l.length ≤ 6 * k + n → 6 * k ≤ l.length →
      charAtLoopChecked l x (6 * k) = some (charAtLoop l x (6 * k)) := by
  obtain ⟨m, hm⟩ := h6
  intro n
  induction n with
  | zero =>
    intro k hkn hkl
    have hstop : ¬ 6 * k < l.length := by omega
    rw [charAtLoopChecked, charAtLoop, if_neg hstop, if_neg hstop]
  | succ n ih =>
    intro k hkn hkl
    by_cases hlt : 6 * k < l.length
    · have hk1 : 6 * (k + 1) ≤ l.length := by omega
      have hb : 6 * k + vertIndex2 < l.length := by
        have hv : vertIndex2 = 3 := rfl
        omega
      have hsome : l.get? (6 * k + vertIndex2) =
          some (l.getD (6 * k + vertIndex2) default) := by
        simp [List.get?_eq_getElem?, List.getElem?_eq_getElem hb,
          List.getD_eq_getElem?_getD]
      have hL : charAtLoopChecked l x (6 * k) =
          if x < (l.getD (6 * k + vertIndex2) default).x then
            some (6 * k / 6)
          else charAtLoopChecked l x (6 * k + 6) := by
        rw [charAtLoopChecked, if_pos hlt, hsome]
      have hR : charAtLoop l x (6 * k) =
          if x < (l.getD (6 * k + vertIndex2) default).x then 6 * k / 6
          else charAtLoop l x (6 * k + 6) := by
        rw [charAtLoop, if_pos hlt]
      rw [hL, hR]
      by_cases hx : x < (l.getD (6 * k + vertIndex2) default).x
      · rw [if_pos hx, if_pos hx]
      · have h66 : 6 * k + 6 = 6 * (k + 1) := by ring
        rw [if_neg hx, if_neg hx, h66]
        exact ih (k + 1) (by omega) hk1
    · rw [charAtLoopChecked, charAtLoop, if_neg hlt, if_neg hlt]

/- ------------------------------------------------------------------ -/
/- Claims                                                             -/
/- ------------------------------------------------------------------ -/

/-- C1, counterexample: on a one-character rebuild the emitted position cache
is not the spec's (TL, TL, BL, TR, BR, BR) sequence — already the first
vertex is the top-right corner, not the top-left one. -/
theorem c1_counterexample :
    (tC1.update).posCache_ ≠
      specCharVertsPos ⟨0, 0⟩ 0 (fontA.glyph 65) := by
  simp [tC1, fontA, gA, Text.update, buildCaches, charVerts, addVert,
    stripOrder, specCharVertsPos]

/-- C1, amended: a successful rebuild emits, for each character in order, six
vertices in the order (TR, TR, TL, BR, BL, BL) — top-right, top-right,
top-left, bottom-right, bottom-left, bottom-left, the left-right mirror of
the claimed pattern — where left corners use x0/u0, right corners x1/u1,
top corners y0/v0, bottom corners y1/v1, offset by the running cursor
(starting at position.x and advanced by xadvance per character) and the
object's position. -/
theorem c1_corner_order (t : Text)
    (h : t.state_.font.ensureRange t.state_.utf32 = false) :
    (t.update).posCache_ =
      (mirrorBuild t.state_.font t.state_.position t.state_.utf32
        t.state_.position.x).1 ∧
    (t.update).uvCache_ =
      (mirrorBuild t.state_.font t.state_.position t.state_.utf32
        t.state_.position.x).2 := by
  simp [Text.update, h, buildCaches_eq_mirror]

/-- Witness for c1_corner_order at the concrete one-character object. -/
theorem c1_witness :
    tC1.state_.font.ensureRange tC1.state_.utf32 = false ∧
    ((tC1.update).posCache_ =
      (mirrorBuild tC1.state_.font tC1.state_.position tC1.state_.utf32
        tC1.state_.position.x).1 ∧
    (tC1.update).uvCache_ =
      (mirrorBuild tC1.state_.font tC1.state_.position tC1.state_.utf32
        tC1.state_.position.x).2) :=
  ⟨rfl, c1_corner_order tC1 rfl⟩

/-- C2: after a successful (non-aborted) rebuild both caches hold exactly six
entries per character of the current text. -/
theorem c2_cache_lockstep (t : Text)
    (h : t.state_.font.ensureRange t.state_.utf32 = false) :
    (t.update).posCache_.length = 6 * t.state_.utf32.length ∧
    (t.update).uvCache_.length = 6 * t.state_.utf32.length := by
  have hb := buildCaches_length t.state_.font t.state_.position
    t.state_.utf32 t.state_.position.x
  simp [Text.update, h]
  exact ⟨hb.1, hb.2⟩

/-- Witness for c2_cache_lockstep at the concrete one-character object. -/
theorem c2_witness :
    tC1.state_.font.ensureRange tC1.state_.utf32 = false ∧
    ((tC1.update).posCache_.length = 6 * tC1.state_.utf32.length ∧
    (tC1.update).uvCache_.length = 6 * tC1.state_.utf32.length) :=
  ⟨rfl, c2_cache_lockstep tC1 rfl⟩

/-- C3: a device sync reallocates a buffer exactly when it is unallocated or
smaller than required (position: one indirect-draw command plus the
position cache bytes; uv: the uv cache bytes), reallocation yields
capacity max(2 * required, 32), and the returned rerecord flag is true
exactly when some reallocation happened. -/
theorem c3_growth_policy (t : Text) :
    ((t.updateDevice).text.posBuf_ =
      if t.posBuf_.size = 0 ∨ t.posBuf_.size <
          sizeofDrawIndirectCommand + sizeofVec2f * t.posCache_.length
      then ⟨max (2 * (sizeofDrawIndirectCommand +
            sizeofVec2f * t.posCache_.length)) 32, t.deviceLocal_⟩
      else t.posBuf_) ∧
    ((t.updateDevice).text.uvBuf_ =
      if t.uvBuf_.size = 0 ∨ t.uvBuf_.size < sizeofVec2f * t.uvCache_.length
      then ⟨max (2 * (sizeofVec2f * t.uvCache_.length)) 32, t.deviceLocal_⟩
      else t.uvBuf_) ∧
    ((t.updateDevice).rerecord = true ↔
      ((t.posBuf_.size = 0 ∨ t.posBuf_.size <
          sizeofDrawIndirectCommand + sizeofVec2f * t.posCache_.length) ∨
       (t.uvBuf_.size = 0 ∨
          t.uvBuf_.size < sizeofVec2f * t.uvCache_.length))) := by
  unfold Text.updateDevice checkResize
  by_cases hp : t.posBuf_.size = 0 ∨ t.posBuf_.size <
      sizeofDrawIndirectCommand + sizeofVec2f * t.posCache_.length <;>
    by_cases hu : t.uvBuf_.size = 0 ∨
        t.uvBuf_.size < sizeofVec2f * t.uvCache_.length <;>
    simp [hp, hu]

/-- C8: when ensureRange reports extended coverage, update returns before
touching the caches: both caches are unchanged from their state at
entry. -/
theorem c8_abort_unchanged (t : Text)
    (h : t.state_.font.ensureRange t.state_.utf32 = true) :
    (t.update).posCache_ = t.posCache_ ∧
    (t.update).uvCache_ = t.uvCache_ := by
  simp [Text.update, h]

/-- Witness for c8_abort_unchanged at a concrete object with nonempty
caches. -/
theorem c8_witness :
    tC8.state_.font.ensureRange tC8.state_.utf32 = true ∧
    ((tC8.update).posCache_ = tC8.posCache_ ∧
    (tC8.update).uvCache_ = tC8.uvCache_) :=
  ⟨rfl, c8_abort_unchanged tC8 rfl⟩

/-- C4, counterexample: buffer capacity does decrease within an object's
lifetime.  Build ten characters (position buffer 992 bytes, uv buffer 960
bytes), replace the text by the empty text and rebuild, then switch
residency: deviceLocal drops both buffers and reallocates them at 32
bytes each. -/
theorem c4_counterexample :
    tC4c.posBuf_.size < tC4b.posBuf_.size ∧
    tC4c.uvBuf_.size < tC4b.uvBuf_.size := by
  constructor
  · show 32 < 992
    norm_num
  · show 32 < 960
    norm_num

/-- C4, amended: capacity never decreases across geometry rebuilds, device
syncs, visibility toggles and text replacement; only a residency switch
(Text::deviceLocal) may drop a buffer and reallocate it smaller. -/
theorem c4_no_shrink (t : Text) (d : Bool) (txt : List Nat) :
    t.posBuf_.size ≤ (t.updateDevice).text.posBuf_.size ∧
    t.uvBuf_.size ≤ (t.updateDevice).text.uvBuf_.size ∧
    (t.update).posBuf_ = t.posBuf_ ∧
    (t.update).uvBuf_ = t.uvBuf_ ∧
    ((t.disable d).1).posBuf_ = t.posBuf_ ∧
    ((t.disable d).1).uvBuf_ = t.uvBuf_ ∧
    (t.setText txt).posBuf_ = t.posBuf_ ∧
    (t.setText txt).uvBuf_ = t.uvBuf_ := by
  refine ⟨?_, ?_, ?_, ?_, rfl, rfl, rfl, rfl⟩
  · unfold Text.updateDevice checkResize
    by_cases hp : t.posBuf_.size = 0 ∨ t.posBuf_.size <
        sizeofDrawIndirectCommand + sizeofVec2f * t.posCache_.length
    · have h1 := Nat.le_max_left
        (2 * (sizeofDrawIndirectCommand + sizeofVec2f * t.posCache_.length))
        32
      simp only [hp, if_true]
      omega
    · simp [hp]
  · unfold Text.updateDevice checkResize
    by_cases hu : t.uvBuf_.size = 0 ∨
        t.uvBuf_.size < sizeofVec2f * t.uvCache_.length
    · have h1 := Nat.le_max_left (2 * (sizeofVec2f * t.uvCache_.length)) 32
      simp only [hu, if_true]
      omega
    · simp [hu]
  · cases h : t.state_.font.ensureRange t.state_.utf32 <;>
      simp [Text.update, h]
  · cases h : t.state_.font.ensureRange t.state_.utf32 <;>
      simp [Text.update, h]

/-- C5: with caches in lockstep with the text (as after a successful
rebuild), a device sync writes an indirect draw command with vertexCount =
6 * characters when the object is visible and 0 when disabled, and
instanceCount = 1; toggling visibility and then syncing does not touch the
geometry caches. -/
theorem c5_indirect_command (t : Text) (d : Bool)
    (h : t.posCache_.length = 6 * t.state_.utf32.length) :
    ((t.updateDevice).cmd.vertexCount =
      if t.disable_ then 0 else 6 * t.state_.utf32.length) ∧
    (t.updateDevice).cmd.instanceCount = 1 ∧
    ((((t.disable d).1).updateDevice).cmd.vertexCount =
      if d then 0 else 6 * t.state_.utf32.length) ∧
    ((((t.disable d).1).updateDevice).cmd.instanceCount = 1) ∧
    ((((t.disable d).1).updateDevice).text.posCache_ = t.posCache_) ∧
    ((((t.disable d).1).updateDevice).text.uvCache_ = t.uvCache_) := by
  unfold Text.updateDevice Text.disable
  cases hd : t.disable_ <;> cases d <;> simp [h]

/-- Witness for c5_indirect_command at the rebuilt one-character object,
disabling it. -/
theorem c5_witness :
    tC1u.posCache_.length = 6 * tC1u.state_.utf32.length ∧
    (((tC1u.updateDevice).cmd.vertexCount =
      if tC1u.disable_ then 0 else 6 * tC1u.state_.utf32.length) ∧
    (tC1u.updateDevice).cmd.instanceCount = 1 ∧
    ((((tC1u.disable true).1).updateDevice).cmd.vertexCount =
      if true then 0 else 6 * tC1u.state_.utf32.length) ∧
    ((((tC1u.disable true).1).updateDevice).cmd.instanceCount = 1) ∧
    ((((tC1u.disable true).1).updateDevice).text.posCache_ =
      tC1u.posCache_) ∧
    ((((tC1u.disable true).1).updateDevice).text.uvCache_ =
      tC1u.uvCache_)) :=
  ⟨rfl, c5_indirect_command tC1u true rfl⟩

/-- C6: with caches in lockstep with the text, charAt(x) returns the index
of the first character whose cached right-edge x-coordinate exceeds the
query offset by the object's position — every earlier character's right
edge is at most the offset query, the returned character's right edge (if
any) exceeds it — and the character count when no right edge exceeds the
query. -/
theorem c6_charAt (t : Text) (x : ℚ)
    (h : t.posCache_.length = 6 * t.state_.utf32.length) :
    t.charAt x ≤ t.state_.utf32.length ∧
    (∀ j, j < t.charAt x →
      rightEdge t.posCache_ j ≤ x + t.state_.position.x) ∧
    (t.charAt x < t.state_.utf32.length →
      x + t.state_.position.x < rightEdge t.posCache_ (t.charAt x)) := by
  have h6 : 6 ∣ t.posCache_.length := ⟨t.state_.utf32.length, h⟩
  have hdiv : t.posCache_.length / 6 = t.state_.utf32.length := by
    rw [h]
    exact Nat.mul_div_cancel_left _ (by norm_num)
  have hspec := charAtLoop_spec t.posCache_ (x + t.state_.position.x) h6
    t.posCache_.length 0 (by omega) (by omega)
  have hzero : (6 : Nat) * 0 = 0 := by norm_num
  rw [hzero, hdiv] at hspec
  have hcharAt : t.charAt x =
      charAtLoop t.posCache_ (x + t.state_.position.x) 0 := rfl
  rw [hcharAt]
  refine ⟨hspec.2.1, ?_, hspec.2.2.2⟩
  intro j hj
  exact not_lt.mp (hspec.2.2.1 j (Nat.zero_le j) hj)

/-- Witness for c6_charAt at the rebuilt one-character object, querying past
the end of the text. -/
theorem c6_witness :
    tC1u.posCache_.length = 6 * tC1u.state_.utf32.length ∧
    (tC1u.charAt 5 ≤ tC1u.state_.utf32.length ∧
    (∀ j, j < tC1u.charAt 5 →
      rightEdge tC1u.posCache_ j ≤ 5 + tC1u.state_.position.x) ∧
    (tC1u.charAt 5 < tC1u.state_.utf32.length →
      5 + tC1u.state_.position.x <
        rightEdge tC1u.posCache_ (tC1u.charAt 5))) :=
  ⟨rfl, c6_charAt tC1u 5 rfl⟩

/-- C10: charAt is total and in-bounds.  On any cache of whole quad groups
(six entries per group, as every rebuild produces), the bounds-checked
rendering of the scan never reports an out-of-bounds access and agrees
with charAt, and the result lies in [0, positionCache.size() / 6] — also
on an empty cache. -/
theorem c10_charAt_total (t : Text) (x : ℚ)
    (h6 : 6 ∣ t.posCache_.length) :
    charAtLoopChecked t.posCache_ (x + t.state_.position.x) 0 =
      some (t.charAt x) ∧
    t.charAt x ≤ t.posCache_.length / 6 := by
  have hzero : (0 : Nat) = 6 * 0 := by norm_num
  constructor
  · have hchk := charAtLoopChecked_eq t.posCache_
      (x + t.state_.position.x) h6 t.posCache_.length 0 (by omega) (by omega)
    rw [hzero]
    exact hchk
  · have hspec := charAtLoop_spec t.posCache_ (x + t.state_.position.x) h6
      t.posCache_.length 0 (by omega) (by omega)
    have hcharAt : t.charAt x =
        charAtLoop t.posCache_ (x + t.state_.position.x) (6 * 0) := rfl
    rw [hcharAt]
    exact hspec.2.1

/-- Witness for c10_charAt_total at an object with an empty geometry
cache. -/
theorem c10_witness :
    (6 ∣ tEmpty.posCache_.length) ∧
    (charAtLoopChecked tEmpty.posCache_ (7 + tEmpty.state_.position.x) 0 =
      some (tEmpty.charAt 7) ∧
    tEmpty.charAt 7 ≤ tEmpty.posCache_.length / 6) :=
  ⟨⟨0, rfl⟩, c10_charAt_total tEmpty 7 ⟨0, rfl⟩⟩

/-- C7: on a cache of whole quad groups, ithBounds(n) is out of range exactly
when the cache holds no quad group n or the text has no character n;
otherwise it returns the rectangle anchored at the character's cached
start vertex minus the object's position, with width the advance
re-queried from the glyph source and height the cached bottom y minus the
cached top y. -/
theorem c7_ithBounds (t : Text) (n : Nat) (h6 : 6 ∣ t.posCache_.length) :
    (t.ithBounds n = none ↔
      (t.posCache_.length / 6 ≤ n ∨ t.state_.utf32.length ≤ n)) ∧
    (∀ r, t.ithBounds n = some r →
      r = { position :=
              ⟨(t.posCache_.getD (n * 6 + vertIndex0) default).x -
                 t.state_.position.x,
               (t.posCache_.getD (n * 6 + vertIndex0) default).y -
                 t.state_.position.y⟩
            size :=
              ⟨(t.state_.font.glyph (t.state_.utf32.getD n 0)).xadvance,
               (t.posCache_.getD (n * 6 + vertIndex2) default).y -
                 (t.posCache_.getD (n * 6 + vertIndex0) default).y⟩ }) := by
  obtain ⟨m, hm⟩ := h6
  have hdiv : t.posCache_.length / 6 = m := by
    rw [hm]
    exact Nat.mul_div_cancel_left m (by norm_num)
  unfold Text.ithBounds
  by_cases hc : t.posCache_.length ≤ n * 6 ∨ t.state_.utf32.length ≤ n
  · rw [if_pos hc]
    refine ⟨⟨fun _ => ?_, fun _ => rfl⟩, ?_⟩
    · omega
    · intro r hr
      exact absurd hr (by simp)
  · rw [if_neg hc]
    refine ⟨⟨fun hnone => absurd hnone (by simp), fun hcond => ?_⟩, ?_⟩
    · exfalso
      apply hc
      omega
    · intro r hr
      exact (Option.some.inj hr).symm

/-- Witness for c7_ithBounds at the rebuilt one-character object, index 0. -/
theorem c7_witness :
    (6 ∣ tC1u.posCache_.length) ∧
    ((tC1u.ithBounds 0 = none ↔
      (tC1u.posCache_.length / 6 ≤ 0 ∨ tC1u.state_.utf32.length ≤ 0)) ∧
    (∀ r, tC1u.ithBounds 0 = some r →
      r = { position :=
              ⟨(tC1u.posCache_.getD (0 * 6 + vertIndex0) default).x -
                 tC1u.state_.position.x,
               (tC1u.posCache_.getD (0 * 6 + vertIndex0) default).y -
                 tC1u.state_.position.y⟩
            size :=
              ⟨(tC1u.state_.font.glyph (tC1u.state_.utf32.getD 0 0)).xadvance,
               (tC1u.posCache_.getD (0 * 6 + vertIndex2) default).y -
                 (tC1u.posCache_.getD (0 * 6 + vertIndex0) default).y⟩ })) :=
  ⟨⟨1, rfl⟩, c7_ithBounds tC1u 0 ⟨1, rfl⟩⟩

/-- C9, counterexample: positive advances alone do not keep neighbouring
bounds apart.  With glyph 0 bearing (x0 = 5, advance 1) and glyph 1
bearing (x0 = 0, advance 1) — both advances positive — the text [0, 1]
yields boundsOf(0) = {(5,0),(1,1)} and boundsOf(1) = {(1,0),(1,1)}: the
right edge of boundsOf(0) is 6, past the left edge 1 of boundsOf(1). -/
theorem c9_counterexample :
    0 < (fontC9.glyph 0).xadvance ∧
    0 < (fontC9.glyph 1).xadvance ∧
    tC9.ithBounds 0 = some r0C9 ∧
    tC9.ithBounds 1 = some r1C9 ∧
    ¬ (r0C9.position.x + r0C9.size.x ≤ r1C9.position.x) := by
  refine ⟨by norm_num [fontC9, gBig], by norm_num [fontC9, gZero], ?_, ?_,
    by norm_num [r0C9, r1C9]⟩
  · show ((freshText [0, 1] fontC9 ⟨0, 0⟩).update).ithBounds 0 = some r0C9
    norm_num [freshText, fontC9, gBig, gZero, Text.update, buildCaches,
      charVerts, addVert, stripOrder, Text.ithBounds, vertIndex0, vertIndex2,
      List.getD, r0C9]
  · show ((freshText [0, 1] fontC9 ⟨0, 0⟩).update).ithBounds 1 = some r1C9
    norm_num [freshText, fontC9, gBig, gZero, Text.update, buildCaches,
      charVerts, addVert, stripOrder, Text.ithBounds, vertIndex0, vertIndex2,
      List.getD, r1C9]

/-- C9, amended: for a two-character text built with positive glyph advances
whose first glyph's left bearing (x0) does not exceed the second's — in
particular for glyphs with equal bearings — boundsOf(0) and boundsOf(1)
do not overlap horizontally: right edge of 0 is at most left edge of 1.
(The counterexample forces the bearing hypothesis: the right edge exceeds
the left edge by exactly x0 of glyph 0 minus x0 of glyph 1 whenever that
difference is positive.) -/
theorem c9_no_overlap (f : Font) (a b : Nat) (p : Vec2f)
    (hcov : f.ensureRange [a, b] = false)
    (hadva : 0 < (f.glyph a).xadvance)
    (hadvb : 0 < (f.glyph b).xadvance)
    (hx0 : (f.glyph a).x0 ≤ (f.glyph b).x0) :
    ∀ r0 r1,
      ((freshText [a, b] f p).update).ithBounds 0 = some r0 →
      ((freshText [a, b] f p).update).ithBounds 1 = some r1 →
      r0.position.x + r0.size.x ≤ r1.position.x := by
  intro r0 r1 h0 h1
  have hcondneg :
      ¬ ((freshText [a, b] f p).state_.font.ensureRange
          (freshText [a, b] f p).state_.utf32 = true) := by
    simp [freshText, hcov]
  have hstate : ((freshText [a, b] f p).update).state_ =
      ⟨[a, b], f, p⟩ := by
    simp only [Text.update]
    rw [if_neg hcondneg]
    simp [freshText]
  have hpos : ((freshText [a, b] f p).update).posCache_ =
      (buildCaches f p [a, b] p.x).1 := by
    simp only [Text.update]
    rw [if_neg hcondneg]
    simp [freshText]
  unfold Text.ithBounds at h0 h1
  rw [hstate, hpos] at h0 h1
  simp only [buildCaches, charVerts, addVert, stripOrder, List.map_cons,
    List.map_nil, List.cons_append, List.nil_append] at h0 h1
  norm_num [vertIndex0, vertIndex2, List.getD] at h0 h1
  rw [← h0, ← h1]
  simp only
  linarith

/-- Witness for c9_no_overlap: the text [65, 66] over fontA (equal bearings,
positive advances) has non-overlapping bounds (0,0)+(1,2) and
(1,0)+(1,2). -/
theorem c9_witness :
    fontA.ensureRange [65, 66] = false ∧
    0 < (fontA.glyph 65).xadvance ∧
    0 < (fontA.glyph 66).xadvance ∧
    (fontA.glyph 65).x0 ≤ (fontA.glyph 66).x0 ∧
    rA0.position.x + rA0.size.x ≤ rA1.position.x :=
  ⟨rfl, by norm_num [fontA, gA], by norm_num [fontA, gA], le_refl _,
    c9_no_overlap fontA 65 66 ⟨0, 0⟩ rfl (by norm_num [fontA, gA])
      (by norm_num [fontA, gA]) (le_refl _) rA0 rA1
      (by norm_num [freshText, fontA, gA, Text.update, buildCaches,
        charVerts, addVert, stripOrder, Text.ithBounds, vertIndex0,
        vertIndex2, List.getD, rA0])
      (by norm_num [freshText, fontA, gA, Text.update, buildCaches,
        charVerts, addVert, stripOrder, Text.ithBounds, vertIndex0,
        vertIndex2, List.getD, rA1])⟩

end Rvg
